import Mathlib

/-!
Verification development for the scrape-orchestration core.

Shallow embedding of the subsystems referenced by the specification:
the session lifecycle manager (`app/scraping/session_manager.py`), the
adaptive domain intelligence (`app/intelligence/adaptive_engine.py`),
the block classifier (`app/services/block_classifier.py`), the
multi-source consensus stage of the field pipeline
(`app/smartfields/extract.py`, `app/services/multi_source_extraction.py`)
and the run-execution loop (`app/workers/tasks.py`).

Conventions of the embedding:
* Python `datetime` values become `Int` timestamps counted in seconds;
  durations divide by 60 (minutes) or 3600 (hours) into `ℚ`, exactly as
  the source divides `total_seconds()`.
* Python floats become `ℚ` (all constants involved are exact decimals).
* Python dicts keyed by strings become insertion-ordered association
  lists; `None`-able values become `Option`.
* JSON-serialisable opaque payloads (cookies, storage state) are carried
  as lists of string pairs; the embedding never inspects them.
-/

namespace Scrapegoat

/-! ## Association-list helpers (model of Python dict operations) -/

/-- Lookup in an insertion-ordered association list (Python `dict.get`). -/
def alist_get [DecidableEq α] (k : α) : List (α × β) → Option β
  | [] => none
  | (k₀, v₀) :: rest => if k = k₀ then some v₀ else alist_get k rest

/-- Set a key in an insertion-ordered association list (Python `d[k] = v`). -/
def alist_set [DecidableEq α] (k : α) (v : β) : List (α × β) → List (α × β)
  | [] => [(k, v)]
  | (k₀, v₀) :: rest => if k = k₀ then (k, v) :: rest else (k₀, v₀) :: alist_set k v rest

/-- Delete a key from an association list (Python `del d[k]`). -/
def alist_erase [DecidableEq α] (k : α) : List (α × β) → List (α × β)
  | [] => []
  | (k₀, v₀) :: rest => if k = k₀ then rest else (k₀, v₀) :: alist_erase k rest

/-! ## Session lifecycle manager (`app/scraping/session_manager.py`)

`BrowserSession` mirrors the dataclass of the source.  Timestamps are
`Int` seconds; cookies / storage state / viewport are opaque payloads.
-/

namespace SessionManager

/-- Mirror of the `BrowserSession` dataclass. -/
structure BrowserSession where
  site_domain : String
  proxy_identity : Option String
  cookies : List (String × String)
  storage_state : Option (List (String × String))
  first_seen_time : Int
  last_success_time : Int
  failure_streak : Nat
  total_uses : Nat
  captcha_count : Nat
  user_agent : Option String
  viewport : Option (Nat × Nat)
  deriving DecidableEq, Repr

/-- `BrowserSession.session_key`: `(site_domain, proxy_identity or "default")`. -/
def BrowserSession.session_key (s : BrowserSession) : String × String :=
  (s.site_domain, s.proxy_identity.getD "default")

/-- `BrowserSession.age_minutes`: `(now - first_seen_time).total_seconds() / 60`. -/
def BrowserSession.age_minutes (s : BrowserSession) (now : Int) : ℚ :=
  ((now - s.first_seen_time : ℤ) : ℚ) / 60

/-- `BrowserSession.minutes_since_success`. -/
def BrowserSession.minutes_since_success (s : BrowserSession) (now : Int) : ℚ :=
  ((now - s.last_success_time : ℤ) : ℚ) / 60

/-- Trust thresholds and lifecycle limits (class constants of
`SessionLifecycleManager`). -/
def TRUST_HEALTHY : ℚ := 70

def TRUST_DEGRADED : ℚ := 40

def TRUST_RETIRED : ℚ := 40

def MAX_AGE_MINUTES : ℚ := 120

def MAX_FAILURE_STREAK : Nat := 3

def MAX_USES : Nat := 100

def HARD_CAP_USES : Nat := 200

def CIRCUIT_FAILURE_THRESHOLD : Nat := 10

def CIRCUIT_COOLDOWN_MINUTES : ℚ := 30

def MAX_PERSISTED_AGE_HOURS : ℚ := 24

/-- Mirror of the dict returned by `_calculate_trust_breakdown`. -/
structure TrustBreakdown where
  base_trust : ℚ
  age_penalty : ℚ
  failure_penalty : ℚ
  success_bonus : ℚ
  usage_penalty : ℚ
  total_trust : ℚ
  deriving DecidableEq, Repr

/-- `SessionLifecycleManager._calculate_trust_breakdown`, transcribed
branch for branch (including the hard age limit short-circuit that
reports `age_penalty = -999` and zero trust). -/
def calculate_trust_breakdown (s : BrowserSession) (now : Int) : TrustBreakdown :=
  let age_minutes := s.age_minutes now
  let age_penalty : ℚ := if age_minutes > 60 then (age_minutes - 60) * (1/2) else 0
  if age_minutes > MAX_AGE_MINUTES then
    { base_trust := 100, age_penalty := -999, failure_penalty := 0,
      success_bonus := 0, usage_penalty := 0, total_trust := 0 }
  else
    let failure_penalty : ℚ := (s.failure_streak : ℚ) * 15
    let success_bonus : ℚ := if s.minutes_since_success now < 5 then 20 else 0
    let usage_penalty₀ : ℚ := if s.total_uses > 50 then ((s.total_uses : ℚ) - 50) * 1 else 0
    let usage_penalty : ℚ := if s.total_uses > MAX_USES then usage_penalty₀ + 50 else usage_penalty₀
    let total₀ := 100 - age_penalty - failure_penalty + success_bonus - usage_penalty
    let total := max 0 (min 100 total₀)
    { base_trust := 100, age_penalty := -age_penalty, failure_penalty := -failure_penalty,
      success_bonus := success_bonus, usage_penalty := -usage_penalty, total_trust := total }

/-- Mirror of the `SiteCircuitBreaker` dataclass. -/
structure SiteCircuitBreaker where
  site_domain : String
  consecutive_failures : Nat
  last_failure_time : Option Int
  is_open : Bool
  deriving DecidableEq, Repr

/-- `SiteCircuitBreaker.record_failure`. -/
def SiteCircuitBreaker.record_failure (b : SiteCircuitBreaker) (now : Int) : SiteCircuitBreaker :=
  { b with consecutive_failures := b.consecutive_failures + 1, last_failure_time := some now }

/-- `SiteCircuitBreaker.record_success`: reset the counter and close. -/
def SiteCircuitBreaker.record_success (b : SiteCircuitBreaker) : SiteCircuitBreaker :=
  { b with consecutive_failures := 0, is_open := false }

/-- `SiteCircuitBreaker.should_open`. -/
def SiteCircuitBreaker.should_open (b : SiteCircuitBreaker) (threshold : Nat) : Bool :=
  b.consecutive_failures ≥ threshold

/-- `SiteCircuitBreaker.should_close`: true when no failure is recorded
or more than `cooldown_minutes` elapsed since the last one. -/
def SiteCircuitBreaker.should_close (b : SiteCircuitBreaker) (now : Int)
    (cooldown_minutes : ℚ) : Bool :=
  match b.last_failure_time with
  | none => true
  | some t => ((now - t : ℤ) : ℚ) / 60 > cooldown_minutes

/-- Pool state of `SessionLifecycleManager`: the `(domain, proxy)`-keyed
session map, the per-domain circuit breakers and the request counters. -/
structure PoolState where
  sessions : List ((String × String) × BrowserSession)
  circuit_breakers : List (String × SiteCircuitBreaker)
  total_requests : Nat
  total_captchas : Nat
  deriving Repr

/-- `SessionLifecycleManager._is_circuit_open`, transcribed with its
exact check order: the `should_open` test runs first and returns before
the cool-down close branch can be reached.  Returns the answer together
with the mutated breaker map. -/
def is_circuit_open (st : PoolState) (site_domain : String) (now : Int) :
    Bool × PoolState :=
  match alist_get site_domain st.circuit_breakers with
  | none => (false, st)
  | some breaker =>
    if breaker.should_open CIRCUIT_FAILURE_THRESHOLD then
      let opened := { breaker with is_open := true }
      (true, { st with circuit_breakers := alist_set site_domain opened st.circuit_breakers })
    else if breaker.is_open ∧ breaker.should_close now CIRCUIT_COOLDOWN_MINUTES then
      let closed := { breaker with is_open := false, consecutive_failures := 0 }
      (false, { st with circuit_breakers := alist_set site_domain closed st.circuit_breakers })
    else
      (breaker.is_open, st)

/-- `SessionLifecycleManager._record_site_success`. -/
def record_site_success (st : PoolState) (site_domain : String) : PoolState :=
  match alist_get site_domain st.circuit_breakers with
  | none => st
  | some b =>
    { st with circuit_breakers := alist_set site_domain b.record_success st.circuit_breakers }

/-- `SessionLifecycleManager._record_site_failure`. -/
def record_site_failure (st : PoolState) (site_domain : String) (now : Int) : PoolState :=
  let b := (alist_get site_domain st.circuit_breakers).getD
    { site_domain := site_domain, consecutive_failures := 0,
      last_failure_time := none, is_open := false }
  { st with circuit_breakers := alist_set site_domain (b.record_failure now) st.circuit_breakers }

/-- `SessionLifecycleManager.get_session`: circuit breaker first, then
hard use cap, then the trust threshold.  Returns the session (if any)
and the mutated pool. -/
def get_session (st : PoolState) (site_domain : String) (proxy_identity : Option String)
    (now : Int) : Option BrowserSession × PoolState :=
  let circuit := is_circuit_open st site_domain now
  if circuit.1 then
    (none, circuit.2)
  else
    let st := circuit.2
    let session_key := (site_domain, proxy_identity.getD "default")
    match alist_get session_key st.sessions with
    | none => (none, st)
    | some session =>
      let trust := (calculate_trust_breakdown session now).total_trust
      if session.total_uses ≥ HARD_CAP_USES then
        (none, { st with sessions := alist_erase session_key st.sessions })
      else if trust ≥ TRUST_DEGRADED then
        (some session, st)
      else
        (none, { st with sessions := alist_erase session_key st.sessions })

/-- `SessionLifecycleManager.create_session`: a fresh session starts with
zero failures, zero uses and both timestamps at `now`. -/
def create_session (st : PoolState) (site_domain : String)
    (cookies : List (String × String)) (storage_state : Option (List (String × String)))
    (proxy_identity : Option String) (user_agent : Option String)
    (viewport : Option (Nat × Nat)) (now : Int) : PoolState :=
  let session : BrowserSession :=
    { site_domain := site_domain, proxy_identity := proxy_identity,
      cookies := cookies, storage_state := storage_state,
      first_seen_time := now, last_success_time := now,
      failure_streak := 0, total_uses := 0, captcha_count := 0,
      user_agent := user_agent, viewport := viewport }
  { st with sessions := alist_set session.session_key session st.sessions }

/-- `SessionLifecycleManager.mark_success`: count the request, reset the
failure streak, bump uses and captcha count, then reset the breaker. -/
def mark_success (st : PoolState) (site_domain : String) (proxy_identity : Option String)
    (had_captcha : Bool) (now : Int) : PoolState :=
  let session_key := (site_domain, proxy_identity.getD "default")
  let st := { st with
    total_requests := st.total_requests + 1,
    total_captchas := st.total_captchas + (if had_captcha then 1 else 0) }
  let st :=
    match alist_get session_key st.sessions with
    | none => st
    | some session =>
      let session := { session with
        last_success_time := now,
        failure_streak := 0,
        total_uses := session.total_uses + 1,
        captcha_count := session.captcha_count + (if had_captcha then 1 else 0) }
      { st with sessions := alist_set session_key session st.sessions }
  record_site_success st site_domain

/-- `SessionLifecycleManager.mark_failure`: count the request, bump the
streak and uses, auto-retire the session at `MAX_FAILURE_STREAK`, then
tick the circuit breaker. -/
def mark_failure (st : PoolState) (site_domain : String) (proxy_identity : Option String)
    (now : Int) : PoolState :=
  let session_key := (site_domain, proxy_identity.getD "default")
  let st := { st with total_requests := st.total_requests + 1 }
  let st :=
    match alist_get session_key st.sessions with
    | none => st
    | some session =>
      let session := { session with
        failure_streak := session.failure_streak + 1,
        total_uses := session.total_uses + 1 }
      if session.failure_streak ≥ MAX_FAILURE_STREAK then
        { st with sessions := alist_erase session_key st.sessions }
      else
        { st with sessions := alist_set session_key session st.sessions }
  record_site_failure st site_domain now

/-- `SessionLifecycleManager.cleanup_expired`: drop every session whose
trust fell below the retire threshold. -/
def cleanup_expired (st : PoolState) (now : Int) : PoolState :=
  let keep := fun (kv : (String × String) × BrowserSession) =>
    ¬ (calculate_trust_breakdown kv.2 now).total_trust < TRUST_RETIRED
  { st with sessions := st.sessions.filter keep }

/-! ### Disk persistence (`_persist_session` / `_load_persisted_sessions`)

The JSON file holds every dataclass field; `first_seen_time` and
`last_success_time` travel as ISO-8601 strings.  `datetime.isoformat`
and `datetime.fromisoformat` are exact inverses, so the embedding keeps
the denoted instant (an `Int`) in the file record. -/

/-- One persisted session file: `asdict(session)` with ISO timestamps. -/
structure SessionFileData where
  site_domain : String
  proxy_identity : Option String
  cookies : List (String × String)
  storage_state : Option (List (String × String))
  first_seen_time : Int
  last_success_time : Int
  failure_streak : Nat
  total_uses : Nat
  captcha_count : Nat
  user_agent : Option String
  viewport : Option (Nat × Nat)
  deriving DecidableEq, Repr

/-- `SessionLifecycleManager._persist_session`: serialise all fields. -/
def persist_session (s : BrowserSession) : SessionFileData :=
  { site_domain := s.site_domain, proxy_identity := s.proxy_identity,
    cookies := s.cookies, storage_state := s.storage_state,
    first_seen_time := s.first_seen_time, last_success_time := s.last_success_time,
    failure_streak := s.failure_streak, total_uses := s.total_uses,
    captcha_count := s.captcha_count, user_agent := s.user_agent,
    viewport := s.viewport }

/-- Per-file body of `_load_persisted_sessions`: parse the timestamps,
drop the file when `age_hours > MAX_PERSISTED_AGE_HOURS`, otherwise
rebuild `BrowserSession(**data)`. -/
def load_persisted_session (now : Int) (d : SessionFileData) : Option BrowserSession :=
  let age_hours : ℚ := ((now - d.first_seen_time : ℤ) : ℚ) / 3600
  if age_hours > MAX_PERSISTED_AGE_HOURS then
    none
  else
    some { site_domain := d.site_domain, proxy_identity := d.proxy_identity,
           cookies := d.cookies, storage_state := d.storage_state,
           first_seen_time := d.first_seen_time, last_success_time := d.last_success_time,
           failure_streak := d.failure_streak, total_uses := d.total_uses,
           captcha_count := d.captcha_count, user_agent := d.user_agent,
           viewport := d.viewport }

end SessionManager

/-! ## String helpers

Executable models of the Python string operations the classifiers use
(`str.lower`, substring containment via `in`, `str.strip`, and
`re.sub(r"\s+", " ", ...)`), defined structurally over `List Char` so
that concrete instances evaluate by `decide`. -/

/-- Model of the `\s` character class (the whitespace the sources meet). -/
def is_ws (c : Char) : Bool :=
  c = ' ' ∨ c = '\t' ∨ c = '\n' ∨ c = '\r'

/-- Does `cs` start with `pat`? -/
def starts_with_chars : List Char → List Char → Bool
  | _, [] => true
  | [], _ :: _ => false
  | c :: cs, p :: ps => c = p && starts_with_chars cs ps

/-- Does `cs` contain `pat` as a contiguous substring? -/
def has_substring_chars : List Char → List Char → Bool
  | [], pat => pat.isEmpty
  | c :: cs, pat => starts_with_chars (c :: cs) pat || has_substring_chars cs pat

/-- Python `pat in s` on strings. -/
def str_has (s pat : String) : Bool :=
  has_substring_chars s.data pat.data

/-- Python `s.lower()`. -/
def str_lower (s : String) : String :=
  ⟨s.data.map Char.toLower⟩

/-- Python `s.strip()`. -/
def trim_chars (cs : List Char) : List Char :=
  ((cs.dropWhile is_ws).reverse.dropWhile is_ws).reverse

/-- Split on whitespace runs, keeping only the non-empty words. -/
def ws_words (cs : List Char) : List (List Char) :=
  (cs.foldr
    (fun c acc =>
      if is_ws c then [] :: acc
      else
        match acc with
        | [] => [[c]]
        | w :: ws => (c :: w) :: ws)
    []).filter (fun w => ¬ w.isEmpty)

/-- `re.sub(r"\s+", " ", cs)` on an already-stripped string: the words
joined by single spaces. -/
def collapse_ws (cs : List Char) : List Char :=
  List.intercalate [' '] (ws_words cs)

/-! ## Block classifier (`app/services/block_classifier.py`) -/

namespace BlockClassifier

/-- `BlockClassifier.should_pause_for_intervention`, transcribed with the
exact order of its checks: 403, 401, captcha text, Cloudflare text,
no-items-on-200, 429, network-ish, default no-pause. -/
def should_pause_for_intervention (response_code : Option Nat) (error_message : String)
    (has_session : Bool) (domain_access_class : String) :
    Bool × Option String × Option String :=
  let msg := str_lower error_message
  if response_code = some 403 then
    if has_session then
      (true, some "login_refresh", some "Session expired or invalid (403 with session)")
    else
      (true, some "manual_access", some "Hard block (403, no session)")
  else if response_code = some 401 then
    (true, some "login_refresh", some "Authentication required (401)")
  else if str_has msg "captcha" || str_has msg "recaptcha" then
    (true, some "captcha_solve", some "CAPTCHA challenge detected")
  else if str_has msg "cloudflare" || str_has msg "challenge" then
    (true, some "manual_access", some "Cloudflare challenge detected")
  else if str_has msg "no items extracted" && response_code = some 200 then
    if domain_access_class ≠ "public" then
      (true, some "selector_fix", some "No items extracted (possible selector drift)")
    else
      (false, none, none)
  else if response_code = some 429 then
    (false, none, none)
  else if response_code = none || str_has msg "timeout" || str_has msg "network" then
    (false, none, none)
  else
    (false, none, none)

/-- `BlockClassifier.get_intervention_priority`. -/
def get_intervention_priority (intervention_type : String) (block_rate : ℚ) : String :=
  if block_rate > 7/10 then "high"
  else if intervention_type = "manual_access" ∨ intervention_type = "captcha_solve" then "normal"
  else if intervention_type = "login_refresh" then "low"
  else if intervention_type = "selector_fix" then "normal"
  else "normal"

end BlockClassifier

/-! ## Adaptive intelligence (`app/intelligence/adaptive_engine.py`) -/

namespace AdaptiveEngine

/-- The per-(domain, engine) statistics row that
`get_biased_initial_engine` reads (the database lookup becomes an
`Option` argument per engine). -/
structure DomainStats where
  total_attempts : Nat
  success_rate : ℚ
  deriving DecidableEq, Repr

def MIN_ATTEMPTS_FOR_BIAS : Nat := 5

def LOW_SUCCESS_THRESHOLD : ℚ := 20/100

def HIGH_SUCCESS_THRESHOLD : ℚ := 85/100

/-- `get_biased_initial_engine`, transcribed: a forced mode is returned
unchanged; otherwise the HTTP row is consulted first (low success rate
skips to Playwright, high success rate keeps HTTP, both with a bias
reason), then the Playwright row, then the HTTP default.  The source
formats run counts and percentages into the reason strings; the
embedding keeps the identifying prefix only. -/
def get_biased_initial_engine (engine_mode : String)
    (http_stats playwright_stats : Option DomainStats) : String × Option String :=
  if engine_mode ≠ "auto" then (engine_mode, none)
  else
    let from_http : Option (String × Option String) :=
      match http_stats with
      | none => none
      | some hs =>
        if hs.total_attempts ≥ MIN_ATTEMPTS_FOR_BIAS then
          if hs.success_rate < LOW_SUCCESS_THRESHOLD then
            some ("playwright", some "domain_bias:http_low_success")
          else if hs.success_rate > HIGH_SUCCESS_THRESHOLD then
            some ("http", some "domain_bias:http_high_success")
          else none
        else none
    match from_http with
    | some r => r
    | none =>
      match playwright_stats with
      | some ps =>
        if ps.total_attempts ≥ MIN_ATTEMPTS_FOR_BIAS ∧
            ps.success_rate > HIGH_SUCCESS_THRESHOLD then
          ("playwright", some "domain_bias:playwright_proven")
        else ("http", none)
      | none => ("http", none)

/-- Modelled from the spec sentence of C8 (the claim restated as a
decision table), for comparison with `get_biased_initial_engine`.  The
spec calls the Playwright tier `browser`; the second component records
whether a bias reason accompanies the engine. -/
def bias_engine_spec (engine_mode : String)
    (http_stats playwright_stats : Option DomainStats) : String × Bool :=
  let http_low :=
    match http_stats with
    | some hs => decide (hs.total_attempts ≥ 5) && decide (hs.success_rate < 20/100)
    | none => false
  let http_high :=
    match http_stats with
    | some hs => decide (hs.total_attempts ≥ 5) && decide (hs.success_rate > 85/100)
    | none => false
  let pw_high :=
    match playwright_stats with
    | some ps => decide (ps.total_attempts ≥ 5) && decide (ps.success_rate > 85/100)
    | none => false
  if engine_mode ≠ "auto" then (engine_mode, false)
  else if http_low then ("playwright", true)
  else if http_high then ("http", true)
  else if pw_high then ("playwright", true)
  else ("http", false)

end AdaptiveEngine

/-! ## Multi-source consensus (`app/services/multi_source_extraction.py`
and the consensus stage of `app/smartfields/extract.py`)

Candidate values extracted from the page are strings; the derived
sources (`json_ld`, `meta_tags`, `script_data`) and the primary selector
value arrive as `Option String`. -/

namespace MultiSource

/-- `MultiSourceExtractor._normalize_for_comparison`: `None` becomes the
sentinel `"NULL"`; otherwise `str(value).strip().lower()` with
whitespace runs collapsed to single spaces. -/
def normalize_for_comparison : Option String → String
  | none => "NULL"
  | some v => ⟨collapse_ws ((trim_chars v.data).map Char.toLower)⟩

/-- Append a `(source, value)` pair to the insertion-ordered group map
keyed by the normalised value (the `value_groups` dict of the source). -/
def group_insert (key : String) (sv : String × String) :
    List (String × List (String × String)) → List (String × List (String × String))
  | [] => [(key, [sv])]
  | (k, g) :: rest =>
    if key = k then (k, g ++ [sv]) :: rest else (k, g) :: group_insert key sv rest

/-- The `value_groups` dict built by `_apply_consensus`. -/
def value_groups (sources : List (String × String)) :
    List (String × List (String × String)) :=
  sources.foldl (fun gs sv => group_insert (normalize_for_comparison (some sv.2)) sv gs) []

/-- `MultiSourceExtractor._apply_consensus` over the non-null sources:
singleton input returns its only value; otherwise the first group
reaching the maximal agreement wins (boost `0.2` for agreement 2, `0.3`
for more), and without a 2-agreement the `primary` entry is returned
with no boost.  Result: `(consensus_value, confidence_boost,
sources_agreeing)`. -/
def apply_consensus (sources : List (String × String)) : Option String × ℚ × Nat :=
  if sources.length < 2 then
    (sources.head?.map Prod.snd, 0, 1)
  else
    let groups := value_groups sources
    let max_agreement := groups.foldl (fun m g => Nat.max m g.2.length) 0
    if max_agreement ≥ 2 then
      match groups.find? (fun g => g.2.length == max_agreement) with
      | some g => (some ((g.2.headD ("", "")).2),
          (if max_agreement == 2 then 2/10 else 3/10 : ℚ), max_agreement)
      | none => (alist_get "primary" sources, 0, 1)
    else
      (alist_get "primary" sources, 0, 1)

/-- The non-null `(source, value)` pairs of `extract_all_sources`, in
the insertion order `primary`, `json_ld`, `meta_tags`, `script_data`. -/
def valid_sources (primary json_ld meta_tags script_data : Option String) :
    List (String × String) :=
  ([("primary", primary), ("json_ld", json_ld),
    ("meta_tags", meta_tags), ("script_data", script_data)].filterMap
    (fun kv => kv.2.map (fun v => (kv.1, v))))

/-- The consensus-relevant fields of the dict returned by
`MultiSourceExtractor.extract_all_sources`. -/
structure MultiSourceResult where
  consensus_value : Option String
  confidence_boost : ℚ
  sources_agreeing : Nat
  deriving DecidableEq, Repr

/-- `MultiSourceExtractor.extract_all_sources`: drop the null sources
and apply consensus.  (When every source is null the Python indexes into
an empty list and raises; `process_field` swallows the exception and
keeps the primary — the same outcome as the `none` consensus value the
embedding returns for the empty list.) -/
def extract_all_sources (primary json_ld meta_tags script_data : Option String) :
    MultiSourceResult :=
  let r := apply_consensus (valid_sources primary json_ld meta_tags script_data)
  { consensus_value := r.1, confidence_boost := r.2.1, sources_agreeing := r.2.2 }

/-- The consensus stage of `process_field` (extract.py lines 105-128):
when the consensus value is non-null it replaces the parsed value and
its boost and agreement count are adopted; otherwise the parsed value
stays with no boost.  Result: `(value, confidence_boost,
sources_agreeing)`. -/
def consensus_step (value json_ld meta_tags script_data : Option String) :
    Option String × ℚ × Nat :=
  let r := extract_all_sources value json_ld meta_tags script_data
  match r.consensus_value with
  | some cv => (some cv, r.confidence_boost, r.sources_agreeing)
  | none => (value, 0, 1)

end MultiSource

/-! ## Run-execution loop (`app/workers/tasks.py`, `execute_run`)

The escalation loop of `execute_run` is embedded exactly as the source
control flow runs.  In the source, the `while escalation_count <
max_escalations` body is a single `try` statement: the `try` suite only
calls `_execute_with_engine`; the first `except Exception` clause cleans
the database session and re-raises unconditionally, and every statement
after that `raise` — the success handling, the escalation decision, the
block classification, the pause and fail paths — is unreachable code
inside the same `except` clause.  The re-raised exception propagates
past the loop to the top-level handler of `execute_run`, which fails the
run with `classify_exception`.  A normal return from the engine
therefore leaves the loop state untouched and the loop repeats.

The engine adapters are external collaborators: the trace argument gives
the outcome of the k-th adapter invocation. -/

namespace Tasks

/-- One extracted item: a field-name / raw-value record. -/
abbrev Item := List (String × String)

/-- The exception taxonomy of `classify_exception`
(`app/services/classifier.py`). -/
inductive ExcKind where
  | timeoutExc
  | networkExc
  | otherExc (name : String)
  deriving DecidableEq, Repr

/-- Outcome of one `_execute_with_engine` call: a normal
`(items, html, status_code)` return, or an exception. -/
inductive EngineOutcome where
  | ok (items : List Item) (html : String) (status_code : Nat)
  | exc (kind : ExcKind)
  deriving DecidableEq, Repr

/-- `classify_exception`: `(failure_code, error_message)`. -/
def classify_exception : ExcKind → String × String
  | .timeoutExc => ("timeout", "Request timed out")
  | .networkExc => ("network", "Network error")
  | .otherExc name => ("unknown", "Unhandled error: " ++ name)

/-- `MAX_ESCALATIONS` (`max_escalations = 3` in `execute_run`). -/
def MAX_ESCALATIONS : Nat := 3

/-- The loop-relevant state of one `execute_run` invocation. -/
structure LoopState where
  escalation_count : Nat
  current_engine : String
  engine_calls : Nat
  records_inserted : Nat
  attempts_logged : Nat
  run_status : String
  deriving DecidableEq, Repr

/-- How one `execute_run` invocation can leave the run.  `runCompleted`
and `pausedForIntervention` exist in the Run state machine; the loop
below can only produce them through the statements that follow the
unconditional `raise` — which never execute. -/
inductive LoopOutcome where
  | runCompleted (st : LoopState)
  | pausedForIntervention (intervention_type : String) (st : LoopState)
  | runFailed (failure_code : String) (error_message : String) (st : LoopState)
  | stillRunning (st : LoopState)
  deriving DecidableEq, Repr

/-- The escalation loop of `execute_run`, with fuel making the
unbounded `while` total: `stillRunning` means the fuel ran out with the
loop still executing and the run status unchanged.  An engine exception
reaches the top-level handler, which fails the run with
`classify_exception`; a normal engine return reaches the end of the
`try` suite — the rest of the loop body being dead code after the
`raise` — so the loop repeats with only the call counter advanced.
Should the loop guard ever fail, the code after the loop fails the run
with `max_escalations`. -/
def execute_run_loop (trace : Nat → EngineOutcome) : Nat → LoopState → LoopOutcome
  | 0, st => .stillRunning st
  | fuel + 1, st =>
    if st.escalation_count < MAX_ESCALATIONS then
      match trace st.engine_calls with
      | .exc kind =>
        let c := classify_exception kind
        .runFailed c.1 c.2
          { st with engine_calls := st.engine_calls + 1, run_status := "failed" }
      | .ok _ _ _ =>
        execute_run_loop trace fuel { st with engine_calls := st.engine_calls + 1 }
    else
      .runFailed "max_escalations" "Reached maximum escalation attempts" st

/-- Initial loop state of an `execute_run` invocation that has begun
executing (`start_run` has set the status to `running`). -/
def initial_state (engine : String) : LoopState :=
  { escalation_count := 0, current_engine := engine, engine_calls := 0,
    records_inserted := 0, attempts_logged := 0, run_status := "running" }

/-- Is the outcome a normal return? -/
def EngineOutcome.is_ok : EngineOutcome → Bool
  | .ok _ _ _ => true
  | .exc _ => false

end Tasks

/-! ## Further definitions used by the statements below -/

namespace SessionManager

/-- One completed public pool operation (the operations named by the
pool invariant). -/
inductive PoolOp where
  | create (site_domain : String) (cookies : List (String × String))
      (storage_state : Option (List (String × String))) (proxy_identity : Option String)
      (user_agent : Option String) (viewport : Option (Nat × Nat)) (now : Int)
  | success (site_domain : String) (proxy_identity : Option String)
      (had_captcha : Bool) (now : Int)
  | failure (site_domain : String) (proxy_identity : Option String) (now : Int)
  | get (site_domain : String) (proxy_identity : Option String) (now : Int)
  | cleanup (now : Int)

/-- Apply one pool operation (the value returned by `get_session` is
discarded; only the pool state matters for the invariant). -/
def apply_pool_op : PoolOp → PoolState → PoolState
  | .create d ck ss p ua vp now, st => create_session st d ck ss p ua vp now
  | .success d p hc now, st => mark_success st d p hc now
  | .failure d p now, st => mark_failure st d p now
  | .get d p now, st => (get_session st d p now).2
  | .cleanup now, st => cleanup_expired st now

/-- The pool invariant of C10: every stored session has
`failure_streak < MAX_FAILURE_STREAK`. -/
def streak_bound (st : PoolState) : Prop :=
  ∀ kv ∈ st.sessions, kv.2.failure_streak < MAX_FAILURE_STREAK

/-- Modelled from the spec: the trust-score formula of §4.5 as the claim
states it — `100 − max(0, age−60)×0.5 − streak×15 + (20 if
minutes_since_success < 5) − max(0, uses−50)×1 − (50 if uses > 100)`,
clamped to [0, 100].  (It omits the hard age cut-off the code applies.) -/
def trust_score_spec (age_minutes : ℚ) (failure_streak : Nat)
    (minutes_since_success : ℚ) (uses : Nat) : ℚ :=
  let raw := 100 - max 0 (age_minutes - 60) * (1/2) - (failure_streak : ℚ) * 15
    + (if minutes_since_success < 5 then 20 else 0)
    - max 0 ((uses : ℚ) - 50) * 1
    - (if uses > 100 then 50 else 0)
  max 0 (min 100 raw)

/-- A session that is 121 minutes old at `now = 7260` (timestamps in
seconds), with no failures and no uses. -/
def c7_session : BrowserSession :=
  { site_domain := "example.com", proxy_identity := none, cookies := [],
    storage_state := none, first_seen_time := 0, last_success_time := 0,
    failure_streak := 0, total_uses := 0, captcha_count := 0,
    user_agent := none, viewport := none }

/-- A breaker that opened after 10 consecutive failures, the last one at
time 0. -/
def c3_breaker : SiteCircuitBreaker :=
  { site_domain := "example.com", consecutive_failures := 10,
    last_failure_time := some 0, is_open := true }

/-- A session created at time 1860 (perfectly healthy at that instant). -/
def c3_session : BrowserSession :=
  { site_domain := "example.com", proxy_identity := none, cookies := [],
    storage_state := none, first_seen_time := 1860, last_success_time := 1860,
    failure_streak := 0, total_uses := 0, captcha_count := 0,
    user_agent := none, viewport := none }

/-- Pool holding the healthy session and the open breaker of C3. -/
def c3_pool : PoolState :=
  { sessions := [(("example.com", "default"), c3_session)],
    circuit_breakers := [("example.com", c3_breaker)],
    total_requests := 0, total_captchas := 0 }

/-- Pool with one session already two failures deep (the next failure
must retire it). -/
def c10_pool : PoolState :=
  { sessions := [(("example.com", "default"), { c3_session with failure_streak := 2 })],
    circuit_breakers := [], total_requests := 0, total_captchas := 0 }

end SessionManager

namespace Tasks

/-- Adapter trace in which every invocation returns one extracted item
with HTTP status 200 (scenario of C1). -/
def trace_nonempty_items : Nat → EngineOutcome :=
  fun _ => .ok [[("title", "Widget")]] "" 200

/-- Adapter trace in which every invocation returns normally with no
items (scenario of C2). -/
def trace_empty_items : Nat → EngineOutcome :=
  fun _ => .ok [] "" 200

/-- Adapter trace in which the terminal engine keeps answering
HTTP 429 with no items (scenario of C4). -/
def trace_429 : Nat → EngineOutcome :=
  fun _ => .ok [] "" 429

/-- Adapter trace in which the engine keeps answering HTTP 403 with no
items (scenario of C5). -/
def trace_403 : Nat → EngineOutcome :=
  fun _ => .ok [] "" 403

end Tasks

/-! ## Theorems -/

theorem mem_alist_set [DecidableEq α] (k : α) (v : β) (l : List (α × β)) :
    ∀ x ∈ alist_set k v l, x = (k, v) ∨ x ∈ l := by
  induction l with
  | nil =>
    intro x hx
    simp only [alist_set, List.mem_singleton] at hx
    exact Or.inl hx
  | cons hd tl ih =>
    intro x hx
    by_cases h : k = hd.1
    · rw [alist_set, if_pos h, List.mem_cons] at hx
      rcases hx with h1 | h2
      · exact Or.inl h1
      · exact Or.inr (List.mem_cons_of_mem _ h2)
    · rw [alist_set, if_neg h, List.mem_cons] at hx
      rcases hx with h1 | h2
      · exact Or.inr (by simp [h1])
      · rcases ih x h2 with h3 | h4
        · exact Or.inl h3
        · exact Or.inr (List.mem_cons_of_mem _ h4)

theorem mem_alist_erase [DecidableEq α] (k : α) (l : List (α × β)) :
    ∀ x ∈ alist_erase k l, x ∈ l := by
  induction l with
  | nil => intro x hx; simp [alist_erase] at hx
  | cons hd tl ih =>
    intro x hx
    by_cases h : k = hd.1
    · rw [alist_erase, if_pos h] at hx
      exact List.mem_cons_of_mem _ hx
    · rw [alist_erase, if_neg h, List.mem_cons] at hx
      rcases hx with h1 | h2
      · simp [h1]
      · exact List.mem_cons_of_mem _ (ih x h2)

namespace Tasks

/-- On any trace of normal engine returns, the loop of `execute_run`
consumes all its fuel without changing anything but the invocation
counter: the success handling, escalation, pause and fail paths are all
dead code after the unconditional `raise` in the `except` clause. -/
theorem execute_run_loop_ok_trace (trace : Nat → EngineOutcome)
    (hok : ∀ k, (trace k).is_ok = true) :
    ∀ (fuel : Nat) (st : LoopState), st.escalation_count < MAX_ESCALATIONS →
      execute_run_loop trace fuel st =
        .stillRunning { st with engine_calls := st.engine_calls + fuel } := by
  intro fuel
  induction fuel with
  | zero =>
    intro st _
    simp [execute_run_loop]
  | succ n ih =>
    intro st hlt
    rw [execute_run_loop]
    rw [if_pos hlt]
    cases htr : trace st.engine_calls with
    | exc kind => exact absurd (hok st.engine_calls) (by simp [htr, EngineOutcome.is_ok])
    | ok items html status =>
      have := ih { st with engine_calls := st.engine_calls + 1 } hlt
      rw [this]
      simp [Nat.add_assoc, Nat.add_comm 1 n]

/-- Claim C1: the claim states that whenever an engine adapter returns a
non-empty items list, the Run is processed to a terminal success
(SmartFields applied, at most one low-confidence intervention, Records
persisted, DomainStats updated, success logged, status `completed`).
The code does none of this: all of that handling sits after the
unconditional `raise` inside the `except` clause of the loop body and is
unreachable, so when every adapter call returns one item the loop leaves
the run status `running` forever — zero records are inserted, nothing is
logged, and the run never reaches `completed`. -/
theorem c1_nonempty_items_never_complete :
    ∀ fuel : Nat,
      execute_run_loop trace_nonempty_items fuel (initial_state "http") =
        .stillRunning { initial_state "http" with engine_calls := fuel } := by
  intro fuel
  have h := execute_run_loop_ok_trace trace_nonempty_items
    (fun _ => rfl) fuel (initial_state "http") (by simp [initial_state, MAX_ESCALATIONS])
  simpa [initial_state] using h

/-- Claim C2: the claim states that the escalation loop executes at most
`MAX_ESCALATIONS = 3` engine attempts and always terminates.  In the
code, `escalation_count` is only modified in dead code, so on any normal
adapter return the guard never changes: with the adapter returning
normally every time, the loop performs exactly `fuel` engine invocations
for every fuel value — unboundedly many, with the run never reaching a
terminal or paused state. -/
theorem c2_escalation_loop_unbounded :
    ∀ fuel : Nat,
      execute_run_loop trace_empty_items fuel (initial_state "http") =
        .stillRunning { initial_state "http" with engine_calls := fuel } := by
  intro fuel
  have h := execute_run_loop_ok_trace trace_empty_items
    (fun _ => rfl) fuel (initial_state "http") (by simp [initial_state, MAX_ESCALATIONS])
  simpa [initial_state] using h

/-- Claim C4: the claim states that a 429 on the terminal engine does
not pause the run (true of the block classifier, first two conjuncts)
and that the run is marked failed with kind `rate_limited`.  The second
half fails: the call sites that would classify a 429 sit in the dead
code after the `raise`, and the loop leaves the run `running` forever
(third conjunct) — the run is never marked failed at all, and even the
dead fail path writes `extraction_failed`, not `rate_limited`. -/
theorem c4_rate_limited_never_marked_failed :
    BlockClassifier.should_pause_for_intervention (some 429)
      "No items extracted with provider" false "public" = (false, none, none) ∧
    BlockClassifier.should_pause_for_intervention (some 429)
      "No items extracted with provider" true "human" = (false, none, none) ∧
    ∀ fuel : Nat,
      execute_run_loop trace_429 fuel (initial_state "provider") =
        .stillRunning { initial_state "provider" with engine_calls := fuel } := by
  refine ⟨by decide, by decide, ?_⟩
  intro fuel
  have h := execute_run_loop_ok_trace trace_429
    (fun _ => rfl) fuel (initial_state "provider") (by simp [initial_state, MAX_ESCALATIONS])
  simpa [initial_state] using h

/-- Claim C5: the claim states that a 403 with no stored session on a
`human` domain pauses the run with one `manual_access` InterventionTask
of priority `high`.  The block classifier does decide `manual_access`
(first conjunct), but `get_intervention_priority` assigns `normal`, not
`high`, whenever the historical block rate is ≤ 0.7 (second and third
conjuncts) — and the orchestrator path that would create the task and
transition the run to `waiting_for_human` is dead code after the
`raise`, so the run stays `running` forever (last conjunct). -/
theorem c5_forbidden_no_session_pause_unreachable :
    BlockClassifier.should_pause_for_intervention (some 403)
      "No items extracted with http" false "human"
      = (true, some "manual_access", some "Hard block (403, no session)") ∧
    BlockClassifier.get_intervention_priority "manual_access" 0 = "normal" ∧
    BlockClassifier.get_intervention_priority "manual_access" 0 ≠ "high" ∧
    ∀ fuel : Nat,
      execute_run_loop trace_403 fuel (initial_state "http") =
        .stillRunning { initial_state "http" with engine_calls := fuel } := by
  have hpr : BlockClassifier.get_intervention_priority "manual_access" 0 = "normal" := by
    norm_num [BlockClassifier.get_intervention_priority]
  refine ⟨by decide, hpr, by rw [hpr]; decide, ?_⟩
  intro fuel
  have h := execute_run_loop_ok_trace trace_403
    (fun _ => rfl) fuel (initial_state "http") (by simp [initial_state, MAX_ESCALATIONS])
  simpa [initial_state] using h

end Tasks

namespace SessionManager

/-- Claim C3: the claim states that an open circuit closes once
`CIRCUIT_COOLDOWN_MINUTES = 30` elapse after the last failure.  With the
breaker at 10 consecutive failures (last failure at time 0) the cooldown
has expired at `now = 1860` (31 minutes, first conjunct) and a success
would close the circuit (second conjunct) — but `_is_circuit_open`
evaluates `should_open` first, and nothing ever resets the counter, so
the circuit reports open at EVERY later instant (third conjunct) and
`get_session` keeps returning nothing (fourth conjunct), although a
perfectly healthy session for the domain is in the pool. -/
theorem c3_circuit_never_closes_after_cooldown :
    c3_breaker.should_close 1860 CIRCUIT_COOLDOWN_MINUTES = true ∧
    c3_breaker.record_success.is_open = false ∧
    (∀ now : Int, (is_circuit_open c3_pool "example.com" now).1 = true) ∧
    (get_session c3_pool "example.com" none 1860).1 = none := by
  refine ⟨?_, rfl, ?_, ?_⟩
  · simp only [c3_breaker, SiteCircuitBreaker.should_close, CIRCUIT_COOLDOWN_MINUTES]
    norm_num
  · intro now
    simp [is_circuit_open, c3_pool, c3_breaker, alist_get,
      SiteCircuitBreaker.should_open, CIRCUIT_FAILURE_THRESHOLD]
  · simp [get_session, is_circuit_open, c3_pool, c3_breaker, alist_get,
      SiteCircuitBreaker.should_open, CIRCUIT_FAILURE_THRESHOLD]

/-- Claim C7, counterexample: for a session 121 minutes old (no
failures, no uses, no recent success) the code returns trust 0 — the
hard age cut-off at `MAX_AGE_MINUTES = 120` — while the formula of the
claim gives `100 − 61 × 0.5 = 69.5`.  The claim as stated (trust always
equals the clamped formula) is therefore false. -/
theorem c7_trust_formula_counterexample :
    (calculate_trust_breakdown c7_session 7260).total_trust = 0 ∧
    trust_score_spec (c7_session.age_minutes 7260) c7_session.failure_streak
      (c7_session.minutes_since_success 7260) c7_session.total_uses = 139/2 ∧
    (0 : ℚ) ≠ 139/2 := by
  refine ⟨?_, ?_, by norm_num⟩
  · norm_num [calculate_trust_breakdown, c7_session, BrowserSession.age_minutes,
      BrowserSession.minutes_since_success, MAX_AGE_MINUTES]
  · norm_num [trust_score_spec, c7_session, BrowserSession.age_minutes,
      BrowserSession.minutes_since_success, max_def, min_def]

/-- Claim C7, amended: for every session and instant, the trust score
equals the formula of the claim — `100 − max(0, age−60)×0.5 −
failure_streak×15 + (20 if minutes_since_success < 5) − max(0, uses−50)
− (50 more if uses > 100)`, clamped to [0, 100] — PROVIDED the session
is at most `MAX_AGE_MINUTES = 120` minutes old; beyond that hard limit
the score is 0. -/
theorem c7_trust_score_amended (s : BrowserSession) (now : Int) :
    (calculate_trust_breakdown s now).total_trust =
      if s.age_minutes now > MAX_AGE_MINUTES then 0
      else trust_score_spec (s.age_minutes now) s.failure_streak
        (s.minutes_since_success now) s.total_uses := by
  unfold calculate_trust_breakdown trust_score_spec
  simp only [MAX_AGE_MINUTES, MAX_USES]
  by_cases h120 : s.age_minutes now > 120
  · simp [h120]
  · simp only [if_neg h120]
    have hA : (if s.age_minutes now > 60 then (s.age_minutes now - 60) * (1/2) else 0)
        = max 0 (s.age_minutes now - 60) * (1/2) := by
      rcases le_or_lt (s.age_minutes now) 60 with h | h
      · rw [if_neg (by simpa using not_lt.mpr h), max_eq_left (by linarith)]
        ring
      · rw [if_pos (by simpa using h), max_eq_right (by linarith)]
    have hU : ((if s.total_uses > 100 then
          (if s.total_uses > 50 then ((s.total_uses : ℚ) - 50) * 1 else 0) + 50
        else (if s.total_uses > 50 then ((s.total_uses : ℚ) - 50) * 1 else 0)))
        = max 0 ((s.total_uses : ℚ) - 50) * 1
          + (if s.total_uses > 100 then (50 : ℚ) else 0) := by
      rcases le_or_lt s.total_uses 50 with h | h
      · have h100 : ¬ s.total_uses > 100 := by omega
        have h50 : ¬ s.total_uses > 50 := by omega
        have hq : (s.total_uses : ℚ) ≤ 50 := by exact_mod_cast h
        rw [if_neg h100, if_neg h50, if_neg h100, max_eq_left (by linarith)]
        ring
      · have h50 : s.total_uses > 50 := h
        have hq : (50 : ℚ) < (s.total_uses : ℚ) := by exact_mod_cast h
        rcases le_or_lt s.total_uses 100 with h2 | h2
        · have h100 : ¬ s.total_uses > 100 := by omega
          rw [if_neg h100, if_pos h50, if_neg h100, max_eq_right (by linarith)]
          ring
        · have h100 : s.total_uses > 100 := h2
          rw [if_pos h100, if_pos h50, if_pos h100, max_eq_right (by linarith)]
    rw [hA, hU]
    ring_nf

/-- Claim C9: persisting a `BrowserSession` and loading the file back is
the identity on every field whenever the stored session is at most
`MAX_PERSISTED_AGE_HOURS = 24` hours old at load time (and the loader
drops strictly older files). -/
theorem c9_session_roundtrip (s : BrowserSession) (now : Int) :
    load_persisted_session now (persist_session s) =
      if ((now - s.first_seen_time : ℤ) : ℚ) / 3600 > MAX_PERSISTED_AGE_HOURS then none
      else some s := by
  simp only [load_persisted_session, persist_session]

theorem sessions_is_circuit_open (st : PoolState) (d : String) (now : Int) :
    ((is_circuit_open st d now).2).sessions = st.sessions := by
  unfold is_circuit_open
  cases alist_get d st.circuit_breakers with
  | none => rfl
  | some b =>
    dsimp only
    split_ifs <;> rfl

theorem sessions_record_site_success (st : PoolState) (d : String) :
    (record_site_success st d).sessions = st.sessions := by
  unfold record_site_success
  cases alist_get d st.circuit_breakers <;> rfl

theorem sessions_record_site_failure (st : PoolState) (d : String) (now : Int) :
    (record_site_failure st d now).sessions = st.sessions := rfl

/-- Claim C10: the pool never stores a session with `failure_streak ≥
MAX_FAILURE_STREAK = 3`: every completed pool operation — create,
mark_success, mark_failure, get_session, cleanup_expired — preserves the
bound.  Freshly created sessions start at streak 0, `mark_success`
resets the streak to 0, and `mark_failure` deletes the session the
moment its streak reaches 3. -/
theorem c10_streak_invariant (op : PoolOp) (st : PoolState)
    (h : streak_bound st) : streak_bound (apply_pool_op op st) := by
  cases op with
  | create d ck ss p ua vp now =>
    intro kv hkv
    simp only [apply_pool_op, create_session] at hkv
    rcases mem_alist_set _ _ _ kv hkv with h1 | h2
    · subst h1
      simp [MAX_FAILURE_STREAK]
    · exact h kv h2
  | success d p hc now =>
    intro kv hkv
    simp only [apply_pool_op, mark_success, sessions_record_site_success] at hkv
    split at hkv
    · dsimp only at hkv
      exact h kv hkv
    · dsimp only at hkv
      rcases mem_alist_set _ _ _ kv hkv with h1 | h2
      · subst h1
        simp [MAX_FAILURE_STREAK]
      · exact h kv h2
  | failure d p now =>
    intro kv hkv
    simp only [apply_pool_op, mark_failure, sessions_record_site_failure] at hkv
    split at hkv
    · dsimp only at hkv
      exact h kv hkv
    · split at hkv
      · dsimp only at hkv
        exact h kv (mem_alist_erase _ _ kv hkv)
      · rename_i s hs
        rcases mem_alist_set _ _ _ kv hkv with h1 | h2
        · subst h1
          simp only [MAX_FAILURE_STREAK] at hs ⊢
          omega
        · exact h kv h2
  | get d p now =>
    intro kv hkv
    simp only [apply_pool_op, get_session] at hkv
    split at hkv
    · dsimp only at hkv
      rw [sessions_is_circuit_open] at hkv
      exact h kv hkv
    · split at hkv
      · dsimp only at hkv
        rw [sessions_is_circuit_open] at hkv
        exact h kv hkv
      · split at hkv
        · dsimp only at hkv
          rw [sessions_is_circuit_open] at hkv
          exact h kv (mem_alist_erase _ _ kv hkv)
        · split at hkv
          · dsimp only at hkv
            rw [sessions_is_circuit_open] at hkv
            exact h kv hkv
          · dsimp only at hkv
            rw [sessions_is_circuit_open] at hkv
            exact h kv (mem_alist_erase _ _ kv hkv)
  | cleanup now =>
    intro kv hkv
    simp only [apply_pool_op, cleanup_expired] at hkv
    exact h kv (List.mem_filter.mp hkv).1

/-- Witness for C10: one `mark_failure` on a pool holding a session with
streak 2 (which the operation must retire) preserves the bound. -/
theorem c10_streak_invariant_witness :
    streak_bound (apply_pool_op (.failure "example.com" none 1900) c10_pool) :=
  c10_streak_invariant (.failure "example.com" none 1900) c10_pool (by
    intro kv hkv
    simp only [c10_pool, List.mem_singleton] at hkv
    subst hkv
    decide)

end SessionManager

namespace MultiSource

theorem alist_get_primary_valid_sources (p j m s : Option String) :
    alist_get "primary" (valid_sources p j m s) = p := by
  cases p <;> cases j <;> cases m <;> cases s <;> rfl

/-- Claim C6, counterexample: with a null primary value and `json_ld` as
the only non-null source, the consensus stage switches the result value
to the `json_ld` value although only ONE source agrees (and adds no
bonus).  The claim — that the value is switched away from the primary
only when at least 2 sources agree, and that with fewer than 2 agreeing
sources the primary value is unchanged — is therefore false. -/
theorem c6_single_source_switch_counterexample :
    (consensus_step none (some "Acme Corp") none none).1 = some "Acme Corp" ∧
    (consensus_step none (some "Acme Corp") none none).2.2 = 1 ∧
    (consensus_step none (some "Acme Corp") none none).2.1 = 0 ∧
    some "Acme Corp" ≠ (none : Option String) := by
  refine ⟨by decide, by decide, by decide, by decide⟩

/-- Claim C6, amended: the confidence bonus is exactly +0.2 when the
agreement count is 2 and +0.3 when it is 3 or more; with at least two
non-null sources and no 2-agreement, the primary value is returned and
the confidence is unchanged; but when exactly one source is non-null,
its value is returned (switching away from a null primary) with no
bonus. -/
theorem c6_consensus_amended (p j m s : Option String) :
    ((extract_all_sources p j m s).sources_agreeing ≥ 2 →
      (extract_all_sources p j m s).confidence_boost =
        (if (extract_all_sources p j m s).sources_agreeing = 2 then 2/10 else 3/10)) ∧
    (2 ≤ (valid_sources p j m s).length →
      (extract_all_sources p j m s).sources_agreeing = 1 →
      (extract_all_sources p j m s).consensus_value = p ∧
      (extract_all_sources p j m s).confidence_boost = 0) ∧
    ((valid_sources p j m s).length = 1 →
      (extract_all_sources p j m s).consensus_value =
        (valid_sources p j m s).head?.map Prod.snd ∧
      (extract_all_sources p j m s).confidence_boost = 0 ∧
      (extract_all_sources p j m s).sources_agreeing = 1) := by
  have hprim := alist_get_primary_valid_sources p j m s
  simp only [extract_all_sources]
  unfold apply_consensus
  by_cases hlen : (valid_sources p j m s).length < 2
  · simp only [if_pos hlen]
    refine ⟨?_, ?_, ?_⟩
    · intro habs
      omega
    · intro h2
      omega
    · intro _
      exact ⟨trivial, trivial, trivial⟩
  · simp only [if_neg hlen]
    by_cases hmax : (value_groups (valid_sources p j m s)).foldl
        (fun m g => Nat.max m g.2.length) 0 ≥ 2
    · simp only [if_pos hmax]
      cases hfind : (value_groups (valid_sources p j m s)).find?
          (fun g => g.2.length ==
            (value_groups (valid_sources p j m s)).foldl
              (fun m g => Nat.max m g.2.length) 0) with
      | some g =>
        simp only [hfind]
        refine ⟨?_, ?_, ?_⟩
        · intro _
          simp only [beq_iff_eq]
        · intro _ habs
          omega
        · intro h1
          omega
      | none =>
        simp only [hfind]
        refine ⟨?_, ?_, ?_⟩
        · intro habs
          omega
        · intro _ _
          exact ⟨hprim, trivial⟩
        · intro h1
          omega
    · simp only [if_neg hmax]
      refine ⟨?_, ?_, ?_⟩
      · intro habs
        omega
      · intro _ _
        exact ⟨hprim, trivial⟩
      · intro h1
        omega

/-- Witness for C6 (amended): two distinct non-null sources — primary
`"A"`, `json_ld` `"B"` — reach no 2-agreement, so the primary value is
kept with no bonus. -/
theorem c6_consensus_amended_witness :
    (extract_all_sources (some "A") (some "B") none none).consensus_value = some "A" ∧
    (extract_all_sources (some "A") (some "B") none none).confidence_boost = 0 :=
  (c6_consensus_amended (some "A") (some "B") none none).2.1 (by decide) (by decide)

end MultiSource

namespace AdaptiveEngine

/-- Claim C8: `get_biased_initial_engine` follows the decision table of
the claim — forced mode wins; with ≥ 5 HTTP attempts a success rate
below 0.20 biases to the browser tier and above 0.85 keeps HTTP, both
with a reason; failing that, ≥ 5 browser attempts with success above
0.85 bias to the browser tier; otherwise HTTP with no reason.  (The
source names the browser tier `playwright`.) -/
theorem c8_bias_initial_engine_follows_spec (engine_mode : String)
    (http_stats playwright_stats : Option DomainStats) :
    (get_biased_initial_engine engine_mode http_stats playwright_stats).1 =
      (bias_engine_spec engine_mode http_stats playwright_stats).1 ∧
    ((get_biased_initial_engine engine_mode http_stats playwright_stats).2).isSome =
      (bias_engine_spec engine_mode http_stats playwright_stats).2 := by
  unfold get_biased_initial_engine bias_engine_spec
  simp only [MIN_ATTEMPTS_FOR_BIAS, LOW_SUCCESS_THRESHOLD, HIGH_SUCCESS_THRESHOLD]
  by_cases hm : engine_mode ≠ "auto"
  · simp [hm]
  · simp only [if_neg hm]
    cases http_stats with
    | none =>
      cases playwright_stats with
      | none => simp
      | some ps =>
        simp only [Bool.and_eq_true, decide_eq_true_eq]
        split_ifs <;> simp_all
    | some hs =>
      cases playwright_stats with
      | none =>
        simp only [Bool.and_eq_true, decide_eq_true_eq]
        split_ifs <;> simp_all
      | some ps =>
        simp only [Bool.and_eq_true, decide_eq_true_eq]
        split_ifs <;> simp_all

end AdaptiveEngine

end Scrapegoat
